import Mathlib

/-!
Verification of `analyze_logs.py` (claude-code-logger).

This file gives a shallow embedding of the log-analysis script into Lean.
Python dynamic values are modelled by the inductive `PyVal`; Python dicts by
association lists `List (String × PyVal)`; a raised (uncaught-at-that-level)
Python exception by `Except.error ()`.  Python numbers (int and float) are
modelled as exact rationals, and `datetime` instants as rational epoch
seconds.  Standard-library functions the script calls (`json.loads`,
`datetime.fromisoformat`, `str.strip`, `str.split`, ...) are modelled by
executable Lean functions that follow their documented behaviour on the
value shapes this script can produce; each such model carries a doc comment.
All definitions are executable.
-/

/-- Python value as it can occur in this script: a JSON-decoded value
(`None`, `bool`, number, string, list, dict) or a `datetime` instant
produced by `parse_timestamp` (modelled as rational epoch seconds).
Python `int` and `float` are collapsed into exact rationals. -/
inductive PyVal where
  | none : PyVal
  | bool (b : Bool) : PyVal
  | num (q : ℚ) : PyVal
  | str (s : String) : PyVal
  | time (t : ℚ) : PyVal
  | list (l : List PyVal) : PyVal
  | dict (d : List (String × PyVal)) : PyVal

/-- Python dict with string keys, as built by the script: an ordered
association list with (for dicts the script constructs) unique keys. -/
abbrev Dict := List (String × PyVal)

/-- First binding of key `k`, mirroring Python dict lookup (the dicts the
script reads or builds have unique keys, so "first" is "the" binding). -/
def lookupKV : Dict → String → Option PyVal
  | [], _ => Option.none
  | (k, v) :: rest, key => if k == key then some v else lookupKV rest key

/-- Python `d.get(key, default)` on a dict. -/
def Dict.get (d : Dict) (k : String) (default : PyVal) : PyVal :=
  (lookupKV d k).getD default

/-- Python `d.get(key)` on a dict (default `None`). -/
def Dict.getN (d : Dict) (k : String) : PyVal :=
  Dict.get d k PyVal.none

/-- Python `key in d` on a dict. -/
def Dict.hasKey (d : Dict) (k : String) : Bool :=
  (lookupKV d k).isSome

/-- Python `d[key] = v`: replace the value in place if the key exists
(keeping its position), otherwise append the binding.  Used to model
`json.loads` building an object (later duplicate keys win). -/
def Dict.setKV : Dict → String → PyVal → Dict
  | [], key, v => [(key, v)]
  | (k, w) :: rest, key, v =>
    if k == key then (k, v) :: rest else (k, w) :: Dict.setKV rest key v

mutual

/-- Python `==` between two values of the shapes occurring here:
`None == None`; `bool` compares with numbers as 0/1 (Python `bool` is an
`int`); numbers compare exactly (int/float collapsed into `ℚ`); strings,
instants, lists elementwise, dicts as key-value sets.  Values of different
kinds (beyond the bool/num coercion) compare unequal, never raising. -/
def pyEq : PyVal → PyVal → Bool
  | PyVal.none, PyVal.none => true
  | PyVal.bool a, PyVal.bool b => a == b
  | PyVal.bool a, PyVal.num q => (if a then (1 : ℚ) else 0) == q
  | PyVal.num q, PyVal.bool a => q == (if a then (1 : ℚ) else 0)
  | PyVal.num a, PyVal.num b => a == b
  | PyVal.str a, PyVal.str b => a == b
  | PyVal.time a, PyVal.time b => a == b
  | PyVal.list a, PyVal.list b => pyEqList a b
  | PyVal.dict a, PyVal.dict b => a.length == b.length && pyEqDictLe a b
  | _, _ => false

/-- Elementwise Python `==` on lists. -/
def pyEqList : List PyVal → List PyVal → Bool
  | [], [] => true
  | a :: as, b :: bs => pyEq a b && pyEqList as bs
  | _, _ => false

/-- Every binding of the first dict is present (up to Python `==` on the
value) in the second; with equal lengths this is Python dict equality. -/
def pyEqDictLe : List (String × PyVal) → List (String × PyVal) → Bool
  | [], _ => true
  | (k, v) :: rest, b =>
    (match lookupKV b k with
     | some w => pyEq v w
     | Option.none => false) && pyEqDictLe rest b
end

/-- Python truthiness of the values occurring here: `None` and zero and the
empty string/list/dict are falsy; a `datetime` is always truthy. -/
def pyTruthy : PyVal → Bool
  | PyVal.none => false
  | PyVal.bool b => b
  | PyVal.num q => !(q == 0)
  | PyVal.str s => !(s == "")
  | PyVal.time _ => true
  | PyVal.list l => !l.isEmpty
  | PyVal.dict d => !d.isEmpty

/-- List of characters starts with the given prefix list. -/
def startsWithL : List Char → List Char → Bool
  | [], _ => true
  | _ :: _, [] => false
  | p :: ps, c :: cs => p == c && startsWithL ps cs

/-- List of characters contains the given list as a contiguous substring
(model of Python `needle in haystack` on strings). -/
def containsL (needle : List Char) : List Char → Bool
  | [] => startsWithL needle []
  | c :: cs => startsWithL needle (c :: cs) || containsL needle cs

/-- Python `needle in haystack` for two strings. -/
def strContains (hay needle : String) : Bool :=
  containsL needle.data hay.data

/-- Whitespace stripped by our model of Python `str.strip()` (the ASCII
whitespace characters; Python also strips some rarer Unicode whitespace,
which never occurs in these logs). -/
def isSpacePy (c : Char) : Bool :=
  c == ' ' || c == '\t' || c == '\n' || c == '\r' || c == Char.ofNat 11 || c == Char.ofNat 12

/-- Model of Python `str.strip()` on a character list. -/
def trimL (cs : List Char) : List Char :=
  ((cs.dropWhile isSpacePy).reverse.dropWhile isSpacePy).reverse

/-- Model of Python `str.split(sep)` for a one-character separator (keeps
empty pieces, exactly like Python). -/
def splitOnChar (sep : Char) : List Char → List (List Char)
  | [] => [[]]
  | c :: cs =>
    if c == sep then
      [] :: splitOnChar sep cs
    else
      match splitOnChar sep cs with
      | [] => [[c]]
      | piece :: rest => (c :: piece) :: rest

/-- Fuel-bounded worker for `replaceL`; each step consumes at least one
character, so fuel equal to the length always suffices. -/
def replaceLAux (old new : List Char) : Nat → List Char → List Char
  | 0, cs => cs
  | _ + 1, [] => []
  | fuel + 1, c :: cs =>
    if !old.isEmpty && startsWithL old (c :: cs) then
      new ++ replaceLAux old new fuel (List.drop old.length (c :: cs))
    else
      c :: replaceLAux old new fuel cs

/-- Model of Python `str.replace(old, new)` for a nonempty pattern (all
non-overlapping occurrences, left to right) on character lists; an empty
pattern is treated as matching nothing (the script only replaces `"Z"`). -/
def replaceL (old new cs : List Char) : List Char :=
  replaceLAux old new cs.length cs

/-- Python `len(v)` for the values `len` accepts here (strings count code
points, lists and dicts their entries); other values raise `TypeError`. -/
def pyLenE : PyVal → Except Unit ℚ
  | PyVal.str s => Except.ok (s.data.length : ℚ)
  | PyVal.list l => Except.ok (l.length : ℚ)
  | PyVal.dict d => Except.ok (d.length : ℚ)
  | _ => Except.error ()

/-- Python `v.get(key, default)` where `v` may be any value: raises
(`AttributeError`) unless `v` is a dict. -/
def PyVal.getE : PyVal → String → PyVal → Except Unit PyVal
  | PyVal.dict d, k, default => Except.ok (Dict.get d k default)
  | _, _, _ => Except.error ()

/-- Python `needle in v` for a string needle: substring test on a string,
`==`-membership on a list, key test on a dict; other values raise. -/
def pyInE (needle : String) : PyVal → Except Unit Bool
  | PyVal.str s => Except.ok (strContains s needle)
  | PyVal.list l => Except.ok (l.any (fun v => pyEq v (PyVal.str needle)))
  | PyVal.dict d => Except.ok (d.any (fun p => p.1 == needle))
  | _ => Except.error ()

/-- Python `for x in v`: elements of a list, characters (as one-character
strings) of a string, keys of a dict; other values raise `TypeError`. -/
def pyIterE : PyVal → Except Unit (List PyVal)
  | PyVal.list l => Except.ok l
  | PyVal.str s => Except.ok (s.data.map (fun c => PyVal.str (String.singleton c)))
  | PyVal.dict d => Except.ok (d.map (fun p => PyVal.str p.1))
  | _ => Except.error ()

/-- Python `(a - b).total_seconds()` for two values that should be
`datetime`s: any other (truthy) operand combination raises `TypeError`. -/
def pySubSeconds : PyVal → PyVal → Except Unit ℚ
  | PyVal.time a, PyVal.time b => Except.ok (a - b)
  | _, _ => Except.error ()

/-- Whitespace characters `json.loads` skips between tokens. -/
def skipWs (cs : List Char) : List Char :=
  cs.dropWhile (fun c => c == ' ' || c == '\t' || c == '\n' || c == '\r')

/-- Value of one hexadecimal digit, if it is one. -/
def hexDigitVal (c : Char) : Option Nat :=
  if c.isDigit then some (c.toNat - 48)
  else if 97 ≤ c.toNat && c.toNat ≤ 102 then some (c.toNat - 87)
  else if 65 ≤ c.toNat && c.toNat ≤ 70 then some (c.toNat - 55)
  else Option.none

/-- Decode the body of a JSON string literal (after the opening quote),
following `json.loads`: the standard backslash escapes, `\uXXXX` with
surrogate-pair combination, and a hard error on unescaped control
characters.  (A lone surrogate, which CPython would keep, has no `Char`
representation and is treated as a parse failure; none occur here.) -/
def jStringAux : List Char → List Char → Option (List Char × List Char)
  | _, [] => Option.none
  | acc, c :: cs =>
    if c == '"' then some (acc.reverse, cs)
    else if c == '\\' then
      match cs with
      | [] => Option.none
      | e :: cs2 =>
        if e == '"' then jStringAux ('"' :: acc) cs2
        else if e == '\\' then jStringAux ('\\' :: acc) cs2
        else if e == '/' then jStringAux ('/' :: acc) cs2
        else if e == 'b' then jStringAux (Char.ofNat 8 :: acc) cs2
        else if e == 'f' then jStringAux (Char.ofNat 12 :: acc) cs2
        else if e == 'n' then jStringAux ('\n' :: acc) cs2
        else if e == 'r' then jStringAux (Char.ofNat 13 :: acc) cs2
        else if e == 't' then jStringAux ('\t' :: acc) cs2
        else if e == 'u' then
          match cs2 with
          | h1 :: h2 :: h3 :: h4 :: cs3 =>
            match hexDigitVal h1, hexDigitVal h2, hexDigitVal h3, hexDigitVal h4 with
            | some a, some b, some c1, some d =>
              let n := ((a * 16 + b) * 16 + c1) * 16 + d
              if 55296 ≤ n && n ≤ 56319 then
                match cs3 with
                | e2 :: u2 :: g1 :: g2 :: g3 :: g4 :: cs4 =>
                  if e2 == '\\' && u2 == 'u' then
                    match hexDigitVal g1, hexDigitVal g2, hexDigitVal g3, hexDigitVal g4 with
                    | some a2, some b2, some c2, some d2 =>
                      let m := ((a2 * 16 + b2) * 16 + c2) * 16 + d2
                      if 56320 ≤ m && m ≤ 57343 then
                        jStringAux (Char.ofNat (65536 + (n - 55296) * 1024 + (m - 56320)) :: acc) cs4
                      else Option.none
                    | _, _, _, _ => Option.none
                  else Option.none
                | _ => Option.none
              else if 56320 ≤ n && n ≤ 57343 then Option.none
              else jStringAux (Char.ofNat n :: acc) cs3
            | _, _, _, _ => Option.none
          | _ => Option.none
        else Option.none
    else if c.toNat < 32 then Option.none
    else jStringAux (c :: acc) cs

/-- JSON string literal body, producing a `String`. -/
def jString (cs : List Char) : Option (String × List Char) :=
  match jStringAux [] cs with
  | some (chars, rest) => some (String.mk chars, rest)
  | Option.none => Option.none

/-- Digits folded into a natural number. -/
def digitsToNat (ds : List Char) : Nat :=
  ds.foldl (fun n c => n * 10 + (c.toNat - 48)) 0

/-- JSON number literal per the strict grammar `json.loads` uses
(no leading zeros, no bare `.5`/`5.`), with the exact rational value
(CPython would round the float forms; these logs only contain values the
analysis compares and sums, for which the exact value is the intent). -/
def jNumber (cs : List Char) : Option (ℚ × List Char) :=
  let signAndRest : Bool × List Char :=
    match cs with
    | c :: r => if c == '-' then (true, r) else (false, cs)
    | [] => (false, [])
  let neg := signAndRest.1
  let cs1 := signAndRest.2
  let intSpan := List.span Char.isDigit cs1
  let ds := intSpan.1
  let cs2 := intSpan.2
  if ds.isEmpty then Option.none
  else if ds.length > 1 && ds.headD ' ' == '0' then Option.none
  else
    let ip : ℚ := (digitsToNat ds : ℚ)
    let fracParsed : Option (ℚ × List Char) :=
      match cs2 with
      | c :: cs3 =>
        if c == '.' then
          let fs := List.span Char.isDigit cs3
          if fs.1.isEmpty then Option.none
          else some (ip + (digitsToNat fs.1 : ℚ) / ((10 : ℚ) ^ fs.1.length), fs.2)
        else some (ip, cs2)
      | [] => some (ip, [])
    match fracParsed with
    | Option.none => Option.none
    | some (base, cs4) =>
      let expParsed : Option (ℚ × List Char) :=
        match cs4 with
        | c :: cs5 =>
          if c == 'e' || c == 'E' then
            let signAndRest2 : Bool × List Char :=
              match cs5 with
              | c2 :: r2 =>
                if c2 == '-' then (true, r2)
                else if c2 == '+' then (false, r2)
                else (false, cs5)
              | [] => (false, [])
            let es := List.span Char.isDigit signAndRest2.2
            if es.1.isEmpty then Option.none
            else
              let e := digitsToNat es.1
              if signAndRest2.1 then some (base / ((10 : ℚ) ^ e), es.2)
              else some (base * ((10 : ℚ) ^ e), es.2)
          else some (base, cs4)
        | [] => some (base, [])
      match expParsed with
      | Option.none => Option.none
      | some (v, cs6) => some ((if neg then -v else v), cs6)

mutual

/-- Model of `json.loads` value grammar, fuel-bounded (the fuel passed by
`jsonParse` always suffices).  `NaN`/`Infinity`, which CPython accepts,
are not representable as rationals and act as parse failures; none occur
in these logs. -/
def jValue : Nat → List Char → Option (PyVal × List Char)
  | 0, _ => Option.none
  | fuel + 1, cs =>
    match skipWs cs with
    | [] => Option.none
    | c :: rest =>
      if c == 'n' then
        if startsWithL ['u', 'l', 'l'] rest then some (PyVal.none, rest.drop 3)
        else Option.none
      else if c == 't' then
        if startsWithL ['r', 'u', 'e'] rest then some (PyVal.bool true, rest.drop 3)
        else Option.none
      else if c == 'f' then
        if startsWithL ['a', 'l', 's', 'e'] rest then some (PyVal.bool false, rest.drop 4)
        else Option.none
      else if c == '"' then
        match jString rest with
        | some (s, rest2) => some (PyVal.str s, rest2)
        | Option.none => Option.none
      else if c == '[' then
        match skipWs rest with
        | c2 :: rest2 =>
          if c2 == ']' then some (PyVal.list [], rest2)
          else jArrayItems fuel [] (c2 :: rest2)
        | [] => Option.none
      else if c == Char.ofNat 123 then
        match skipWs rest with
        | c2 :: rest2 =>
          if c2 == Char.ofNat 125 then some (PyVal.dict [], rest2)
          else jObjItems fuel [] (c2 :: rest2)
        | [] => Option.none
      else
        match jNumber (c :: rest) with
        | some (q, rest2) => some (PyVal.num q, rest2)
        | Option.none => Option.none

/-- Comma-separated array items up to the closing bracket. -/
def jArrayItems : Nat → List PyVal → List Char → Option (PyVal × List Char)
  | 0, _, _ => Option.none
  | fuel + 1, acc, cs =>
    match jValue fuel cs with
    | some (v, rest) =>
      (match skipWs rest with
       | c :: rest2 =>
         if c == ']' then some (PyVal.list (acc ++ [v]), rest2)
         else if c == ',' then jArrayItems fuel (acc ++ [v]) rest2
         else Option.none
       | [] => Option.none)
    | Option.none => Option.none

/-- Comma-separated object entries up to the closing brace; a duplicate
key overwrites the earlier value in place, as a CPython dict does. -/
def jObjItems : Nat → Dict → List Char → Option (PyVal × List Char)
  | 0, _, _ => Option.none
  | fuel + 1, acc, cs =>
    match skipWs cs with
    | c :: rest =>
      if c == '"' then
        match jString rest with
        | some (k, rest2) =>
          (match skipWs rest2 with
           | c2 :: rest3 =>
             if c2 == ':' then
               match jValue fuel rest3 with
               | some (v, rest4) =>
                 (match skipWs rest4 with
                  | c3 :: rest5 =>
                    if c3 == Char.ofNat 125 then some (PyVal.dict (Dict.setKV acc k v), rest5)
                    else if c3 == ',' then jObjItems fuel (Dict.setKV acc k v) rest5
                    else Option.none
                  | [] => Option.none)
               | Option.none => Option.none
             else Option.none
           | [] => Option.none)
        | Option.none => Option.none
      else Option.none
    | [] => Option.none
end

/-- Model of `json.loads` applied to a whole string: one JSON document with
optional surrounding whitespace; `Option.none` is `json.JSONDecodeError`. -/
def jsonParse (cs : List Char) : Option PyVal :=
  match jValue (2 * cs.length + 8) cs with
  | some (v, rest) => if (skipWs rest).isEmpty then some v else Option.none
  | Option.none => Option.none

/-- Gregorian leap year. -/
def isLeap (y : Nat) : Bool :=
  y % 4 == 0 && (y % 100 != 0 || y % 400 == 0)

/-- Length of a month. -/
def daysInMonth (y m : Nat) : Nat :=
  if m == 2 then (if isLeap y then 29 else 28)
  else if m == 4 || m == 6 || m == 9 || m == 11 then 30
  else 31

/-- Days in year `y` before the first day of month `m`. -/
def daysBeforeMonth (y m : Nat) : Nat :=
  (List.range m).foldl (fun acc i => if 1 ≤ i then acc + daysInMonth y i else acc) 0

/-- Proleptic Gregorian ordinal of a date, as `datetime.toordinal`:
day 1 is January 1 of year 1. -/
def toOrdinal (y m d : Nat) : Nat :=
  365 * (y - 1) + (y - 1) / 4 - (y - 1) / 100 + (y - 1) / 400 + daysBeforeMonth y m + d

/-- Two decimal digits as a number, if both characters are digits. -/
def parse2 (c1 c2 : Char) : Option Nat :=
  if c1.isDigit && c2.isDigit then some ((c1.toNat - 48) * 10 + (c2.toNat - 48))
  else Option.none

/-- Time-of-day part of an ISO string after the separator, per
`datetime.fromisoformat` (Python ≤ 3.10 grammar):
`HH[:MM[:SS[.fff[fff]]]]`.  Returns elapsed seconds and the rest. -/
def parseTimeOfDay (cs : List Char) : Option (ℚ × List Char) :=
  match cs with
  | h1 :: h2 :: rest =>
    match parse2 h1 h2 with
    | some h =>
      if h ≥ 24 then Option.none
      else
        match rest with
        | ':' :: m1 :: m2 :: rest2 =>
          (match parse2 m1 m2 with
           | some mi =>
             if mi ≥ 60 then Option.none
             else
               (match rest2 with
                | ':' :: s1 :: s2 :: rest3 =>
                  (match parse2 s1 s2 with
                   | some ss =>
                     if ss ≥ 60 then Option.none
                     else
                       (match rest3 with
                        | '.' :: rest4 =>
                          let fs := List.span Char.isDigit rest4
                          if fs.1.length == 3 || fs.1.length == 6 then
                            some ((h * 3600 + mi * 60 + ss : ℚ) +
                              (digitsToNat fs.1 : ℚ) / ((10 : ℚ) ^ fs.1.length), fs.2)
                          else Option.none
                        | _ => some ((h * 3600 + mi * 60 + ss : ℚ), rest3))
                   | Option.none => Option.none)
                | _ => some ((h * 3600 + mi * 60 : ℚ), rest2))
           | Option.none => Option.none)
        | _ => some ((h * 3600 : ℚ), rest)
    | Option.none => Option.none
  | _ => Option.none

/-- UTC-offset part `±HH:MM[:SS[.ffffff]]` of an ISO string, per
`datetime.fromisoformat` (Python ≤ 3.10 grammar), as signed seconds. -/
def parseTzOffset (cs : List Char) : Option ℚ :=
  match cs with
  | sign :: rest =>
    if sign == '+' || sign == '-' then
      match parseTimeOfDay rest with
      | some (secs, []) =>
        some (if sign == '-' then -secs else secs)
      | _ => Option.none
    else Option.none
  | [] => Option.none

/-- Model of `datetime.fromisoformat` (Python ≤ 3.10 grammar):
`YYYY-MM-DD[*HH[:MM[:SS[.fff[fff]]]][±HH:MM[:SS]]]`, with calendar
validation.  The value is an instant in rational seconds:
`toordinal · 86400 + time-of-day − utc-offset`.  (Python distinguishes
naive from offset-aware datetimes; every timestamp in these logs carries
an offset, so awareness is not modelled.) -/
def fromisoformatQ (cs : List Char) : Option ℚ :=
  match cs with
  | y1 :: y2 :: y3 :: y4 :: '-' :: m1 :: m2 :: '-' :: d1 :: d2 :: rest =>
    if y1.isDigit && y2.isDigit && y3.isDigit && y4.isDigit then
      let y := digitsToNat [y1, y2, y3, y4]
      match parse2 m1 m2, parse2 d1 d2 with
      | some mo, some dd =>
        if y == 0 || mo == 0 || mo > 12 || dd == 0 || dd > daysInMonth y mo then Option.none
        else
          let base : ℚ := (toOrdinal y mo dd : ℚ) * 86400
          match rest with
          | [] => some base
          | _ :: timeChars =>
            match parseTimeOfDay timeChars with
            | some (secs, []) => some (base + secs)
            | some (secs, tzChars) =>
              (match parseTzOffset tzChars with
               | some off => some (base + secs - off)
               | Option.none => Option.none)
            | Option.none => Option.none
      | _, _ => Option.none
    else Option.none
  | _ => Option.none

/-- Embedding of `parse_timestamp` (analyze_logs.py lines 14-16):
`datetime.fromisoformat(timestamp_str.replace('Z', '+00:00'))`.  A
non-string argument raises (`AttributeError` on `.replace`); an
unparseable string raises `ValueError`.  Both are `Except.error`. -/
def parse_timestamp : PyVal → Except Unit ℚ
  | PyVal.str s =>
    match fromisoformatQ (replaceL "Z".data "+00:00".data s.data) with
    | some t => Except.ok t
    | Option.none => Except.error ()
  | _ => Except.error ()

mutual

/-- Model of Python `repr` restricted to the JSON-shaped values that can
reach it here (it is only used through `str()` for the two `len(str(...))`
length fields).  String escaping and float formatting are not reproduced:
a string is wrapped in single quotes verbatim and a non-integer rational
is printed as `num/den`; no claim depends on these lengths. -/
def pyRepr : PyVal → String
  | PyVal.none => "None"
  | PyVal.bool b => if b then "True" else "False"
  | PyVal.num q => if q.den == 1 then toString q.num else toString q.num ++ "/" ++ toString q.den
  | PyVal.str s => String.singleton (Char.ofNat 39) ++ s ++ String.singleton (Char.ofNat 39)
  | PyVal.time t => "datetime(" ++ toString t.num ++ ")"
  | PyVal.list l => "[" ++ pyReprList l ++ "]"
  | PyVal.dict d => String.singleton (Char.ofNat 123) ++ pyReprDict d ++ String.singleton (Char.ofNat 125)

/-- Comma-separated `repr`s of list elements. -/
def pyReprList : List PyVal → String
  | [] => ""
  | [v] => pyRepr v
  | v :: rest => pyRepr v ++ ", " ++ pyReprList rest

/-- Comma-separated `repr`s of dict entries. -/
def pyReprDict : List (String × PyVal) → String
  | [] => ""
  | [(k, v)] => pyRepr (PyVal.str k) ++ ": " ++ pyRepr v
  | (k, v) :: rest => pyRepr (PyVal.str k) ++ ": " ++ pyRepr v ++ ", " ++ pyReprDict rest
end

/-- Model of Python `str(v)`: the string itself for a string, `repr`
otherwise. -/
def pyStr : PyVal → String
  | PyVal.str s => s
  | v => pyRepr v

/-- State accumulated by the streaming-response replay loop of
`extract_api_data` (analyze_logs.py lines 34-38): the four token counters
(Python variables initialised to `None`) and the accumulated assistant
message. -/
structure SSEState where
  input_tokens : PyVal
  output_tokens : PyVal
  cached_input_tokens : PyVal
  cache_creation_input_tokens : PyVal
  assistant_message : String

/-- Initial replay state: all counters `None`, empty message. -/
def initSSE : SSEState :=
  ⟨PyVal.none, PyVal.none, PyVal.none, PyVal.none, ""⟩

/-- Embedding of the event dispatch in the `try` body of
`extract_api_data` (analyze_logs.py lines 52-71) applied to one decoded
`data:` payload.  Every path on which Python would raise inside the `try`
is a no-op (the bare `except Exception: continue` at line 70), and no
branch mutates state before its possible raise point, so the whole
dispatch is atomic per event. -/
def processEvent (st : SSEState) (data : PyVal) : SSEState :=
  match data with
  | PyVal.dict f =>
    let ty := Dict.getN f "type"
    if pyEq ty (PyVal.str "message_start") && Dict.hasKey f "message" then
      -- usage = data['message'].get('usage', {}); raises unless both dicts
      match lookupKV f "message" with
      | some (PyVal.dict m) =>
        (match Dict.get m "usage" (PyVal.dict []) with
         | PyVal.dict u =>
           { st with
             input_tokens := Dict.getN u "input_tokens",
             output_tokens := Dict.getN u "output_tokens",
             cached_input_tokens := Dict.getN u "cache_read_input_tokens",
             cache_creation_input_tokens := Dict.getN u "cache_creation_input_tokens" }
         | _ => st
         )
      | _ => st
    else if pyEq ty (PyVal.str "content_block_delta") && Dict.hasKey f "delta" then
      -- appended only when data['delta'] is a dict whose 'text' is a str;
      -- every other shape raises in `'text' in ...`, the subscript or `+=`
      match lookupKV f "delta" with
      | some (PyVal.dict d) =>
        (match lookupKV d "text" with
         | some (PyVal.str s) =>
           { st with assistant_message := st.assistant_message ++ s }
         | _ => st)
      | _ => st
    else if pyEq ty (PyVal.str "message_delta") && Dict.hasKey f "usage" then
      match lookupKV f "usage" with
      | some (PyVal.dict u) =>
        { st with output_tokens := Dict.getN u "output_tokens" }
      | _ => st
    else st
  | _ => st

/-- Literal ping payload prefix skipped at analyze_logs.py line 47. -/
def pingLit : List Char :=
  "\x7b\"type\": \"ping\"\x7d".data

/-- Embedding of one iteration of the replay loop of `extract_api_data`
(analyze_logs.py lines 43-71) on one line of the response body: non-`data:`
lines, empty payloads, ping payloads and payloads `json.loads` rejects
leave the state unchanged. -/
def replayStep (st : SSEState) (line : List Char) : SSEState :=
  if startsWithL "data: ".data line then
    let data_str := trimL (line.drop 6)
    if data_str.isEmpty || startsWithL pingLit data_str then st
    else
      match jsonParse data_str with
      | some data => processEvent st data
      | Option.none => st
  else st

/-- Embedding of the whole replay loop of `extract_api_data`
(analyze_logs.py lines 42-71) over the lines of a response body. -/
def replay_lines (ls : List (List Char)) : SSEState :=
  ls.foldl replayStep initSSE

/-- The value if it is a string, otherwise a raised `TypeError` (used by
the model of `' '.join`). -/
def asStrE : PyVal → Except Unit String
  | PyVal.str s => Except.ok s
  | _ => Except.error ()

/-- Model of Python `' '.join(parts)`: raises unless every part is a
string. -/
def joinSpaceE (vs : List PyVal) : Except Unit String := do
  let ss ← vs.mapM asStrE
  pure (String.intercalate " " ss)

/-- Embedding of the structured-content flattening loops of
`extract_api_data` (analyze_logs.py lines 86-92 and 98-104): parts that
are dicts tagged `type == 'text'` contribute their `text` value (default
`''`), plain strings contribute themselves, anything else is ignored;
the final `' '.join` raises when a contributed `text` value is not a
string. -/
def flattenParts (parts : List PyVal) : Except Unit String :=
  joinSpaceE (parts.foldl
    (fun acc part =>
      match part with
      | PyVal.dict d =>
        if pyEq (Dict.getN d "type") (PyVal.str "text") then
          acc ++ [Dict.get d "text" (PyVal.str "")]
        else acc
      | PyVal.str s => acc ++ [PyVal.str s]
      | _ => acc)
    [])

/-- Embedding of `extract_api_data` (analyze_logs.py lines 18-126) on one
decoded log entry.  `Except.error ()` is an exception raised out of the
function (the caller catches only `json.JSONDecodeError`, so such an
exception escapes the per-line loop); `Option.none` is the `return None`
for entries whose request URL does not contain the API host. -/
def extract_api_data (log_entry : PyVal) : Except Unit (Option Dict) := do
  let request ← log_entry.getE "request" (PyVal.dict [])
  let response ← log_entry.getE "response" (PyVal.dict [])
  let urlVal ← request.getE "url" (PyVal.str "")
  let hasApi ← pyInE "anyrouter.top" urlVal
  if !hasApi then
    return Option.none
  else do
    let request_body ← request.getE "body" (PyVal.dict [])
    let response_body ← response.getE "body" (PyVal.str "")
    -- lines 40-71: replay the body only when it is a string containing
    -- the message_start marker
    let st :=
      match response_body with
      | PyVal.str s =>
        if strContains s "message_start" then replay_lines (splitOnChar '\n' s.data)
        else initSSE
      | _ => initSSE
    -- lines 74-75
    let messagesVal ← request_body.getE "messages" (PyVal.list [])
    let msgs ← pyIterE messagesVal
    let user_messages ← msgs.filterM (fun m => do
      let r ← m.getE "role" PyVal.none
      pure (pyEq r (PyVal.str "user")))
    -- lines 78-92
    let last_user_message ←
      match user_messages.getLast? with
      | some last_msg => do
        let content ← last_msg.getE "content" (PyVal.str "")
        (match content with
         | PyVal.str s => pure s
         | PyVal.list parts => flattenParts parts
         | _ => pure "")
      | Option.none => pure ""
    -- lines 95-104
    let systemRaw ← request_body.getE "system" (PyVal.str "")
    let system_prompt ←
      match systemRaw with
      | PyVal.list parts => do
        let s ← flattenParts parts
        pure (PyVal.str s)
      | v => pure v
    -- lines 106-126: the dict literal, in source evaluation order
    let ts ← parse_timestamp (← request.getE "timestamp" (PyVal.str ""))
    let request_id ← log_entry.getE "requestId" PyVal.none
    let model ← request_body.getE "model" PyVal.none
    let max_tokens ← request_body.getE "max_tokens" PyVal.none
    let temperature ← request_body.getE "temperature" PyVal.none
    let message_count ← pyLenE messagesVal
    let system_prompt_length : ℚ := ((pyStr system_prompt).data.length : ℚ)
    let userLens ← msgs.filterM (fun m => do
        let r ← m.getE "role" PyVal.none
        pure (pyEq r (PyVal.str "user")))
    let userLenVals ← userLens.mapM (fun m => do
        let c ← m.getE "content" (PyVal.str "")
        pure (((pyStr c).data.length : ℚ)))
    let user_message_length : ℚ := userLenVals.foldl (fun a b => a + b) 0
    let response_status ← response.getE "statusCode" PyVal.none
    let condA ← response.getE "timestamp" PyVal.none
    let condB ← request.getE "timestamp" PyVal.none
    let response_time_ms ←
      if pyTruthy condA && pyTruthy condB then do
        let t2 ← parse_timestamp (← response.getE "timestamp" (PyVal.str ""))
        let t1 ← parse_timestamp (← request.getE "timestamp" (PyVal.str ""))
        pure (PyVal.num ((t2 - t1) * 1000))
      else pure PyVal.none
    let toolsVal ← request_body.getE "tools" (PyVal.list [])
    let tools_available ← pyLenE toolsVal
    let streaming ← request_body.getE "stream" (PyVal.bool false)
    pure (some
      [("timestamp", PyVal.time ts),
       ("request_id", request_id),
       ("model", model),
       ("max_tokens", max_tokens),
       ("temperature", temperature),
       ("message_count", PyVal.num message_count),
       ("system_prompt", system_prompt),
       ("system_prompt_length", PyVal.num system_prompt_length),
       ("user_message_length", PyVal.num user_message_length),
       ("last_user_message", PyVal.str last_user_message),
       ("assistant_message", PyVal.str st.assistant_message),
       ("input_tokens", st.input_tokens),
       ("output_tokens", st.output_tokens),
       ("cached_input_tokens", st.cached_input_tokens),
       ("cache_creation_input_tokens", st.cache_creation_input_tokens),
       ("response_status", response_status),
       ("response_time_ms", response_time_ms),
       ("tools_available", PyVal.num tools_available),
       ("streaming", streaming)])

/-- Embedding of the event loop of `extract_statsig_data`
(analyze_logs.py lines 140-172): one extracted record dict per event whose
`eventName` is one of the two recognised literals, in batch order; other
events are dropped.  The batch request is passed in because each record
re-reads and re-parses the batch timestamp (lines 146 and 164). -/
def extract_event_dicts (request : PyVal) : List PyVal → Except Unit (List Dict)
  | [] => Except.ok []
  | event :: rest => do
    let event_name ← event.getE "eventName" PyVal.none
    let metadata ← event.getE "metadata" (PyVal.dict [])
    if pyEq event_name (PyVal.str "tengu_api_success") then do
      let ts ← parse_timestamp (← request.getE "timestamp" (PyVal.str ""))
      let d : Dict :=
        [("timestamp", PyVal.time ts),
         ("event_type", event_name),
         ("model", ← metadata.getE "model" PyVal.none),
         ("message_count", ← metadata.getE "messageCount" PyVal.none),
         ("input_tokens", ← metadata.getE "inputTokens" PyVal.none),
         ("output_tokens", ← metadata.getE "outputTokens" PyVal.none),
         ("cached_input_tokens", ← metadata.getE "cachedInputTokens" PyVal.none),
         ("uncached_input_tokens", ← metadata.getE "uncachedInputTokens" PyVal.none),
         ("duration_ms", ← metadata.getE "durationMs" PyVal.none),
         ("ttft_ms", ← metadata.getE "ttftMs" PyVal.none),
         ("cost_usd", ← metadata.getE "costUSD" PyVal.none),
         ("stop_reason", ← metadata.getE "stop_reason" PyVal.none),
         ("provider", ← metadata.getE "provider" PyVal.none),
         ("request_id", ← metadata.getE "requestId" PyVal.none),
         ("session_id", ← metadata.getE "sessionId" PyVal.none)]
      let restD ← extract_event_dicts request rest
      pure (d :: restD)
    else if pyEq event_name (PyVal.str "tengu_api_query") then do
      let ts ← parse_timestamp (← request.getE "timestamp" (PyVal.str ""))
      let d : Dict :=
        [("timestamp", PyVal.time ts),
         ("event_type", event_name),
         ("model", ← metadata.getE "model" PyVal.none),
         ("messages_length", ← metadata.getE "messagesLength" PyVal.none),
         ("temperature", ← metadata.getE "temperature" PyVal.none),
         ("provider", ← metadata.getE "provider" PyVal.none),
         ("session_id", ← metadata.getE "sessionId" PyVal.none),
         ("request_id", ← metadata.getE "requestId" PyVal.none)]
      let restD ← extract_event_dicts request rest
      pure (d :: restD)
    else extract_event_dicts request rest

/-- Embedding of `extract_statsig_data` (analyze_logs.py lines 128-174).
Note line 174 returns `None`, not the empty list, when no event of a
recognised kind was found: `extracted_events if extracted_events else
None`. -/
def extract_statsig_data (log_entry : PyVal) : Except Unit (Option (List Dict)) := do
  let request ← log_entry.getE "request" (PyVal.dict [])
  let urlVal ← request.getE "url" (PyVal.str "")
  let hasStatsig ← pyInE "statsig.anthropic.com" urlVal
  if !hasStatsig then
    return Option.none
  else do
    let request_body ← request.getE "body" (PyVal.dict [])
    let eventsVal ← request_body.getE "events" (PyVal.list [])
    let events ← pyIterE eventsVal
    let extracted ← extract_event_dicts request events
    if extracted.isEmpty then pure Option.none else pure (some extracted)

/-- Tier-1 predicate of the matching loop (analyze_logs.py lines 222-224):
same `request_id` (Python `==`, so two absent ids match) and kind
`tengu_api_success`. -/
def tier1Pred (api_req : Dict) (ev : Dict) : Bool :=
  pyEq (Dict.getN ev "request_id") (Dict.getN api_req "request_id") &&
    pyEq (Dict.getN ev "event_type") (PyVal.str "tengu_api_success")

/-- Tier-2 predicate (analyze_logs.py lines 230-232): same `request_id`
and kind `tengu_api_query`. -/
def tier2Pred (api_req : Dict) (ev : Dict) : Bool :=
  pyEq (Dict.getN ev "request_id") (Dict.getN api_req "request_id") &&
    pyEq (Dict.getN ev "event_type") (PyVal.str "tengu_api_query")

/-- Tier-3 scan (analyze_logs.py lines 240-246): first event whose (truthy)
timestamp is within 5 seconds of the API timestamp and whose kind is one of
the two recognised literals, in telemetry-list order.  The subtraction
raises (`Except.error`) when the two truthy timestamps are not both
`datetime`s, exactly where Python would raise `TypeError`/`AttributeError`;
the conditions are evaluated in source order. -/
def tier3Find (api_timestamp : PyVal) : List Dict → Except Unit (Option Dict)
  | [] => Except.ok Option.none
  | ev :: rest => do
    let event_timestamp := Dict.getN ev "timestamp"
    if pyTruthy event_timestamp then do
      let diff ← pySubSeconds api_timestamp event_timestamp
      if |diff| < 5 &&
          (pyEq (Dict.getN ev "event_type") (PyVal.str "tengu_api_success") ||
           pyEq (Dict.getN ev "event_type") (PyVal.str "tengu_api_query")) then
        pure (some ev)
      else
        tier3Find api_timestamp rest
    else
      tier3Find api_timestamp rest

/-- Truthiness of the `matching_event` variable: `None` or an empty dict
is falsy. -/
def optDictTruthy : Option Dict → Bool
  | some d => !d.isEmpty
  | Option.none => false

/-- Embedding of the per-API-record matching search (analyze_logs.py lines
218-246): tier 1 (identity + success), then — when `matching_event` is
still falsy — tier 2 (identity + query), then tier 3 (timestamp within 5
seconds) guarded by a truthy API timestamp.  A tier that finds nothing
leaves the previous value of `matching_event` in place. -/
def find_matching_event (api_req : Dict) (statsig_events : List Dict) :
    Except Unit (Option Dict) := do
  let m1 : Option Dict := statsig_events.find? (tier1Pred api_req)
  let m2 : Option Dict :=
    if !optDictTruthy m1 then
      match statsig_events.find? (tier2Pred api_req) with
      | some ev => some ev
      | Option.none => m1
    else m1
  if !optDictTruthy m2 then
    let api_timestamp := Dict.getN api_req "timestamp"
    if pyTruthy api_timestamp then do
      let m3 ← tier3Find api_timestamp statsig_events
      match m3 with
      | some ev => pure (some ev)
      | Option.none => pure m2
    else
      pure m2
  else
    pure m2

/-- Embedding of the Python dict overlay `{**a, **b}` (analyze_logs.py
line 250): keys of `a` first, each with the value from `b` when `b` also
binds it, then the keys only `b` binds, in order. -/
def mergeDicts (a b : Dict) : Dict :=
  (a.map (fun p => (p.1, (lookupKV b p.1).getD p.2))) ++
    b.filter (fun p => (lookupKV a p.1).isNone)

/-- Embedding of the matching loop of `analyze_log_file` (analyze_logs.py
lines 217-253): each API record is paired (merged via `{**api, **event}`)
with its truthy matching event or collected as unmatched, preserving
order. -/
def correlate_loop : List Dict → List Dict → Except Unit (List Dict × List Dict)
  | [], _ => Except.ok ([], [])
  | api_req :: rest, statsig_events => do
    let m ← find_matching_event api_req statsig_events
    let tailPair ← correlate_loop rest statsig_events
    if optDictTruthy m then
      match m with
      | some ev => pure ((mergeDicts api_req ev) :: tailPair.1, tailPair.2)
      | Option.none => pure (tailPair.1, api_req :: tailPair.2)
    else
      pure (tailPair.1, api_req :: tailPair.2)

/-- First-occurrence deduplication by Python `==` (model of
`list(set(...))` at analyze_logs.py line 212; CPython leaves the set
order unspecified, the model fixes first-occurrence order — the script
only prints this diagnostic). -/
def dedupPy : List PyVal → List PyVal
  | [] => []
  | v :: rest => v :: (dedupPy rest).filter (fun w => !pyEq v w)

/-- Diagnostic counts built at analyze_logs.py lines 211-215. -/
structure DebugInfo where
  statsig_event_types : List PyVal
  sample_api_request_ids : List PyVal
  sample_statsig_request_ids : List PyVal

/-- Terminal aggregate returned by `analyze_log_file` (analyze_logs.py
lines 255-261). -/
structure AnalysisResult where
  api_requests : List Dict
  statsig_events : List Dict
  matched_requests : List Dict
  unmatched_api_requests : List Dict
  debug_info : DebugInfo

/-- Embedding of the per-line scan of `analyze_log_file` (analyze_logs.py
lines 184-204): strip each line, skip blanks, `json.loads`; a line that
fails to decode is skipped with a warning (`except json.JSONDecodeError`),
while any other exception out of the extractors propagates
(`Except.error`).  Accumulates the API records and telemetry records in
order. -/
def scan_lines : List String → Except Unit (List Dict × List Dict)
  | [] => Except.ok ([], [])
  | line :: rest => do
    let stripped := trimL line.data
    if stripped.isEmpty then scan_lines rest
    else
      match jsonParse stripped with
      | Option.none => scan_lines rest
      | some log_entry => do
        let api_data ← extract_api_data log_entry
        let statsig_data ← extract_statsig_data log_entry
        let tailPair ← scan_lines rest
        let apis :=
          match api_data with
          | some d => if !d.isEmpty then d :: tailPair.1 else tailPair.1
          | Option.none => tailPair.1
        let evs :=
          match statsig_data with
          | some l => if !l.isEmpty then l ++ tailPair.2 else tailPair.2
          | Option.none => tailPair.2
        pure (apis, evs)

/-- Embedding of `analyze_log_file` (analyze_logs.py lines 176-261) on the
list of lines of the log file (file I/O itself is outside the model; a
missing file fails before any of this runs).  `Except.error ()` is an
uncaught exception, which `main` turns into exit status 1 — the whole
analysis aborts with no result. -/
def analyze_log_file (lines : List String) : Except Unit AnalysisResult := do
  let scanned ← scan_lines lines
  let api_requests := scanned.1
  let statsig_events := scanned.2
  let debug_info : DebugInfo :=
    ⟨dedupPy (statsig_events.map (fun ev => Dict.get ev "event_type" (PyVal.str "unknown"))),
     (api_requests.take 3).map (fun r => Dict.getN r "request_id"),
     ((statsig_events.take 3).filter (fun ev => pyTruthy (Dict.getN ev "request_id"))).map
       (fun ev => Dict.getN ev "request_id")⟩
  let pair ← correlate_loop api_requests statsig_events
  pure ⟨api_requests, statsig_events, pair.1, pair.2, debug_info⟩

/-- Model of Python `sum(...)` over record-field values: starts from 0 and
raises `TypeError` on any addend that is not a number (a present-but-`None`
field raises; `bool` adds as 0/1). -/
def pyAdd (acc : ℚ) : PyVal → Except Unit ℚ
  | PyVal.num q => Except.ok (acc + q)
  | PyVal.bool b => Except.ok (acc + (if b then 1 else 0))
  | _ => Except.error ()

/-- Python `sum(vs)`. -/
def pySum (vs : List PyVal) : Except Unit ℚ :=
  vs.foldlM pyAdd 0

/-- Aggregate statistics over the matched records. -/
structure SummaryStats where
  total_input_tokens : ℚ
  total_output_tokens : ℚ
  total_cost : ℚ
  avg_duration_ms : ℚ
  avg_ttft_ms : ℚ

/-- Embedding of the aggregate-statistics computation performed (twice,
with identical formulas) at analyze_logs.py lines 374-378 (`print_summary`)
and lines 430-434 (`main`): each aggregate sums `req.get(field, 0)` — the
default 0 replaces an *absent key* only, a key present with value `None`
makes `sum` raise — and the two averages divide by the number of *all*
matched records.  Both call sites run only when the matched list is
nonempty, so the division is never by zero. -/
def summary_statistics (matched_requests : List Dict) : Except Unit SummaryStats := do
  let total_input_tokens ← pySum (matched_requests.map (fun r => Dict.get r "input_tokens" (PyVal.num 0)))
  let total_output_tokens ← pySum (matched_requests.map (fun r => Dict.get r "output_tokens" (PyVal.num 0)))
  let total_cost ← pySum (matched_requests.map (fun r => Dict.get r "cost_usd" (PyVal.num 0)))
  let sum_duration ← pySum (matched_requests.map (fun r => Dict.get r "duration_ms" (PyVal.num 0)))
  let sum_ttft ← pySum (matched_requests.map (fun r => Dict.get r "ttft_ms" (PyVal.num 0)))
  pure ⟨total_input_tokens, total_output_tokens, total_cost,
    sum_duration / (matched_requests.length : ℚ),
    sum_ttft / (matched_requests.length : ℚ)⟩

/-- Bind in `Except Unit` succeeds exactly when both stages succeed. -/
theorem exceptBindOk {α β : Type} {x : Except Unit α} {f : α → Except Unit β} {b : β} :
    (x >>= f = Except.ok b) ↔ ∃ a, x = Except.ok a ∧ f a = Except.ok b := by
  cases x <;> simp [Bind.bind, Except.bind]

/-- Bind in `Except Unit` fails when either stage fails. -/
theorem exceptBindError {α β : Type} {x : Except Unit α} {f : α → Except Unit β} :
    (x >>= f = Except.error ()) ↔
      (x = Except.error () ∨ ∃ a, x = Except.ok a ∧ f a = Except.error ()) := by
  cases x <;> simp [Bind.bind, Except.bind]

/-- Telemetry-host entry whose batch has one event of unrecognised kind. -/
def statsigNoRecognized : PyVal :=
  PyVal.dict
    [("request", PyVal.dict
       [("url", PyVal.str "https://statsig.anthropic.com/v1/rgstr"),
        ("timestamp", PyVal.str "2024-01-01T10:00:01Z"),
        ("body", PyVal.dict
          [("events", PyVal.list [PyVal.dict [("eventName", PyVal.str "tengu_storage_check")]])])])]

/-- Schematic telemetry-host entry with a given url and event batch. -/
def mkStatsigEntry (u : String) (events : List PyVal) : PyVal :=
  PyVal.dict
    [("request", PyVal.dict
       [("url", PyVal.str u),
        ("timestamp", PyVal.str "2024-01-01T10:00:01Z"),
        ("body", PyVal.dict [("events", PyVal.list events)])])]

/-- C4 counterexample: a telemetry-host entry whose batch contains zero
events of a recognised kind makes `extract_statsig_data` return the `None`
sentinel, not the empty sequence — line 174 reads `extracted_events if
extracted_events else None`, so the claimed empty-sequence return value is
impossible. -/
theorem C4_counterexample :
    extract_statsig_data statsigNoRecognized = Except.ok Option.none ∧
    ∀ l : List Dict, extract_statsig_data statsigNoRecognized ≠ Except.ok (some l) := by
  refine ⟨rfl, ?_⟩
  intro l h
  rw [show extract_statsig_data statsigNoRecognized = Except.ok Option.none from rfl] at h
  exact Option.noConfusion (Except.ok.inj h)

/-- Event loop on a batch with no recognised event produces no records. -/
theorem extract_event_dicts_unrecognized (req : PyVal) :
    ∀ events : List PyVal,
      (∀ ev ∈ events, ∃ f, ev = PyVal.dict f ∧
        pyEq (Dict.getN f "eventName") (PyVal.str "tengu_api_success") = false ∧
        pyEq (Dict.getN f "eventName") (PyVal.str "tengu_api_query") = false) →
      extract_event_dicts req events = Except.ok []
  | [], _ => rfl
  | ev :: rest, h => by
    obtain ⟨f, rfl, h1, h2⟩ := h ev (List.mem_cons_self ev rest)
    have ih := extract_event_dicts_unrecognized req rest
      (fun e he => h e (List.mem_cons_of_mem _ he))
    simp only [Dict.getN] at h1 h2
    simp [extract_event_dicts, PyVal.getE, Bind.bind, Except.bind, h1, h2, ih]

/-- C4 as amended: a telemetry-host entry whose event batch contains zero
events of a recognised kind makes telemetry extraction return the `None`
sentinel — the same value returned for an entry that is not a telemetry
entry at all, so the two cases are not distinguishable in the return
value. -/
theorem C4_theorem (u u2 : String) (events events2 : List PyVal)
    (hu : strContains u "statsig.anthropic.com" = true)
    (hev : ∀ ev ∈ events, ∃ f, ev = PyVal.dict f ∧
      pyEq (Dict.getN f "eventName") (PyVal.str "tengu_api_success") = false ∧
      pyEq (Dict.getN f "eventName") (PyVal.str "tengu_api_query") = false)
    (hu2 : strContains u2 "statsig.anthropic.com" = false) :
    extract_statsig_data (mkStatsigEntry u events) = Except.ok Option.none ∧
    extract_statsig_data (mkStatsigEntry u2 events2) = Except.ok Option.none := by
  constructor
  · have hE := extract_event_dicts_unrecognized
      (PyVal.dict [("url", PyVal.str u), ("timestamp", PyVal.str "2024-01-01T10:00:01Z"),
        ("body", PyVal.dict [("events", PyVal.list events)])]) events hev
    simp [extract_statsig_data, mkStatsigEntry, PyVal.getE, Dict.get, Dict.getN, lookupKV,
      pyInE, pyIterE, Bind.bind, Except.bind, hu, hE, Pure.pure, Except.pure]
  · simp [extract_statsig_data, mkStatsigEntry, PyVal.getE, Dict.get, Dict.getN, lookupKV,
      pyInE, Bind.bind, Except.bind, hu2, Pure.pure, Except.pure]

/-- C4 witness: the amended theorem applied to one concrete telemetry-host
entry with an unrecognised event and one concrete non-telemetry entry. -/
theorem C4_witness :
    strContains "https://statsig.anthropic.com/v1/rgstr" "statsig.anthropic.com" = true ∧
    extract_statsig_data
      (mkStatsigEntry "https://statsig.anthropic.com/v1/rgstr"
        [PyVal.dict [("eventName", PyVal.str "tengu_storage_check")]]) = Except.ok Option.none ∧
    extract_statsig_data (mkStatsigEntry "https://example.com/other" []) = Except.ok Option.none := by
  refine ⟨by decide, ?_⟩
  exact C4_theorem "https://statsig.anthropic.com/v1/rgstr" "https://example.com/other"
    [PyVal.dict [("eventName", PyVal.str "tengu_storage_check")]] []
    (by decide)
    (by
      intro ev hev
      rw [List.mem_singleton] at hev
      exact ⟨_, hev, rfl, rfl⟩)
    (by decide)

/-- Lookup in an appended association list: the left part wins. -/
theorem lookupKV_append (x y : Dict) (k : String) :
    lookupKV (x ++ y) k =
      match lookupKV x k with
      | some v => some v
      | Option.none => lookupKV y k := by
  induction x with
  | nil => simp [lookupKV]
  | cons p rest ih =>
    obtain ⟨k1, v1⟩ := p
    by_cases h : (k1 == k) = true
    · simp [lookupKV, h]
    · simp only [Bool.not_eq_true] at h
      simp [lookupKV, h, ih]

/-- Lookup in the overlay part of `mergeDicts`: each key of `a` is present,
bound to the `b` value when `b` binds the key. -/
theorem lookupKV_overlay (a b : Dict) (k : String) :
    lookupKV (a.map (fun p => (p.1, (lookupKV b p.1).getD p.2))) k =
      (lookupKV a k).map (fun v => (lookupKV b k).getD v) := by
  induction a with
  | nil => simp [lookupKV]
  | cons p rest ih =>
    obtain ⟨k1, v1⟩ := p
    by_cases h : (k1 == k) = true
    · have hk : k1 = k := eq_of_beq h
      subst hk
      simp [lookupKV, h]
    · simp only [Bool.not_eq_true] at h
      simp [lookupKV, h, ih]

/-- Lookup in the new-keys part of `mergeDicts`: only keys `a` does not
bind survive the filter. -/
theorem lookupKV_restrict (a b : Dict) (k : String) :
    lookupKV (b.filter (fun p => (lookupKV a p.1).isNone)) k =
      if (lookupKV a k).isNone then lookupKV b k else Option.none := by
  induction b with
  | nil => simp [lookupKV]
  | cons p rest ih =>
    obtain ⟨k2, w⟩ := p
    by_cases hk : (k2 == k) = true
    · have hk2 : k2 = k := eq_of_beq hk
      subst hk2
      by_cases ha : (lookupKV a k2).isNone = true
      · simp [List.filter, ha, lookupKV, ih]
      · simp only [Bool.not_eq_true] at ha
        simp [List.filter, ha, lookupKV, ih]
    · simp only [Bool.not_eq_true] at hk
      by_cases ha : (lookupKV a k2).isNone = true
      · simp [List.filter, ha, lookupKV, hk, ih]
      · simp only [Bool.not_eq_true] at ha
        simp [List.filter, ha, lookupKV, hk, ih]

/-- C2 as amended: when building the merged record `{**api_req,
**matching_event}` every field name the telemetry record binds takes the
telemetry value — even when the API value is present — and a field the
telemetry record does not bind keeps the API value. -/
theorem C2_theorem (a b : Dict) (k : String) :
    lookupKV (mergeDicts a b) k =
      match lookupKV b k with
      | some w => some w
      | Option.none => lookupKV a k := by
  unfold mergeDicts
  rw [lookupKV_append, lookupKV_overlay, lookupKV_restrict]
  cases ha : lookupKV a k <;> cases hb : lookupKV b k <;> simp [ha, hb]

/-- API record (Correlator input shape) whose `input_tokens` is present. -/
def apiRecPresent : Dict :=
  [("timestamp", PyVal.time 63839786400),
   ("request_id", PyVal.str "req-1"),
   ("model", PyVal.str "claude-3"),
   ("input_tokens", PyVal.num 12),
   ("output_tokens", PyVal.num 7)]

/-- Success telemetry record with the same `request_id` whose
`input_tokens` is the absent marker `None` and whose `model` differs. -/
def evRecOverwrite : Dict :=
  [("timestamp", PyVal.time 63839786401),
   ("event_type", PyVal.str "tengu_api_success"),
   ("model", PyVal.none),
   ("input_tokens", PyVal.none),
   ("request_id", PyVal.str "req-1"),
   ("cost_usd", PyVal.num (1/2))]

/-- C2 counterexample: correlating one API record whose `input_tokens` is
present (12) with its matched success event whose `input_tokens` is `None`
builds a merged record whose `input_tokens` is `None`: the telemetry field
overwrites the already-present API field, and replacing 12 by the absence
marker is not additive in any sense. -/
theorem C2_counterexample :
    Dict.getN apiRecPresent "input_tokens" = PyVal.num 12 ∧
    pyTruthy (Dict.getN apiRecPresent "input_tokens") = true ∧
    correlate_loop [apiRecPresent] [evRecOverwrite] =
      Except.ok ([mergeDicts apiRecPresent evRecOverwrite], []) ∧
    Dict.getN (mergeDicts apiRecPresent evRecOverwrite) "input_tokens" = PyVal.none ∧
    Dict.getN (mergeDicts apiRecPresent evRecOverwrite) "model" = PyVal.none := by
  exact ⟨rfl, rfl, rfl, rfl, rfl⟩

/-- Python `==` against `None` holds exactly for `None`. -/
theorem pyEq_none_iff (v : PyVal) : pyEq v PyVal.none = true ↔ v = PyVal.none := by
  cases v <;> simp [pyEq]

/-- Python `==` against a string holds exactly for that string. -/
theorem pyEq_str_iff (v : PyVal) (s : String) : pyEq v (PyVal.str s) = true ↔ v = PyVal.str s := by
  cases v <;> simp [pyEq]

/-- A record bound to a string `event_type` is a nonempty dict. -/
theorem ne_nil_of_getN_str {d : Dict} {k : String} {s : String}
    (h : Dict.getN d k = PyVal.str s) : d ≠ [] := by
  intro hnil
  subst hnil
  simp [Dict.getN, Dict.get, lookupKV] at h

/-- API record with neither `requestId` nor `timestamp`. -/
def apiNoIds : Dict :=
  [("request_id", PyVal.none), ("timestamp", PyVal.none), ("model", PyVal.str "claude-3")]

/-- Success telemetry record whose `requestId` is also absent. -/
def evNoRid : Dict :=
  [("timestamp", PyVal.time 63839786401),
   ("event_type", PyVal.str "tengu_api_success"),
   ("request_id", PyVal.none)]

/-- C3 counterexample: an API record with no `requestId` and no
`timestamp` is *matched*, not unmatched, when a success telemetry record
also lacks a `requestId`: tier 1 compares `None == None`, which holds in
Python, so the record pairs with that event and the unmatched list stays
empty. -/
theorem C3_counterexample :
    Dict.getN apiNoIds "request_id" = PyVal.none ∧
    Dict.getN apiNoIds "timestamp" = PyVal.none ∧
    correlate_loop [apiNoIds] [evNoRid] =
      Except.ok ([mergeDicts apiNoIds evNoRid], []) := ⟨rfl, rfl, rfl⟩

/-- C3 as amended: an API record with no `requestId` and no `timestamp` is
classified unmatched exactly when no telemetry record of a recognised kind
also has an absent `requestId`; such a record identity-matches on
`None == None` (tier 3 is skipped because the API timestamp is falsy). -/
theorem C3_theorem (a : Dict) (evs : List Dict)
    (h1 : Dict.getN a "request_id" = PyVal.none)
    (h2 : Dict.getN a "timestamp" = PyVal.none) :
    correlate_loop [a] evs = Except.ok ([], [a]) ↔
      ∀ ev ∈ evs, ¬(Dict.getN ev "request_id" = PyVal.none ∧
        (Dict.getN ev "event_type" = PyVal.str "tengu_api_success" ∨
         Dict.getN ev "event_type" = PyVal.str "tengu_api_query")) := by
  have ht1 : ∀ ev, tier1Pred a ev = true ↔
      (Dict.getN ev "request_id" = PyVal.none ∧
       Dict.getN ev "event_type" = PyVal.str "tengu_api_success") := by
    intro ev
    unfold tier1Pred
    rw [h1]
    simp [Bool.and_eq_true, pyEq_none_iff, pyEq_str_iff]
  have ht2 : ∀ ev, tier2Pred a ev = true ↔
      (Dict.getN ev "request_id" = PyVal.none ∧
       Dict.getN ev "event_type" = PyVal.str "tengu_api_query") := by
    intro ev
    unfold tier2Pred
    rw [h1]
    simp [Bool.and_eq_true, pyEq_none_iff, pyEq_str_iff]
  constructor
  · intro hres ev hev hP
    obtain ⟨hrid, het⟩ := hP
    cases hfind1 : evs.find? (tier1Pred a) with
    | some ev0 =>
      have hp0 := List.find?_some hfind1
      have hne : ev0 ≠ [] := ne_nil_of_getN_str ((ht1 ev0).mp hp0).2
      have hfm : find_matching_event a evs = Except.ok (some ev0) := by
        simp [find_matching_event, hfind1, optDictTruthy, List.isEmpty_eq_true, hne,
          Pure.pure, Except.pure]
      rw [show correlate_loop [a] evs = Except.ok ([mergeDicts a ev0], []) by
        simp [correlate_loop, hfm, Bind.bind, Except.bind, optDictTruthy,
          List.isEmpty_eq_true, hne, Pure.pure, Except.pure]] at hres
      simp at hres
    | none =>
      rcases het with hsucc | hquery
      · rw [List.find?_eq_none] at hfind1
        exact hfind1 ev hev ((ht1 ev).mpr ⟨hrid, hsucc⟩)
      · cases hfind2 : evs.find? (tier2Pred a) with
        | some ev1 =>
          have hp1 := List.find?_some hfind2
          have hne : ev1 ≠ [] := ne_nil_of_getN_str ((ht2 ev1).mp hp1).2
          have hfm : find_matching_event a evs = Except.ok (some ev1) := by
            simp [find_matching_event, hfind1, hfind2, optDictTruthy,
              List.isEmpty_eq_true, hne, Pure.pure, Except.pure]
          rw [show correlate_loop [a] evs = Except.ok ([mergeDicts a ev1], []) by
            simp [correlate_loop, hfm, Bind.bind, Except.bind, optDictTruthy,
              List.isEmpty_eq_true, hne, Pure.pure, Except.pure]] at hres
          simp at hres
        | none =>
          rw [List.find?_eq_none] at hfind2
          exact hfind2 ev hev ((ht2 ev).mpr ⟨hrid, hquery⟩)
  · intro hall
    have f1 : evs.find? (tier1Pred a) = Option.none :=
      List.find?_eq_none.mpr (fun x hx hpx =>
        hall x hx ⟨((ht1 x).mp hpx).1, Or.inl ((ht1 x).mp hpx).2⟩)
    have f2 : evs.find? (tier2Pred a) = Option.none :=
      List.find?_eq_none.mpr (fun x hx hpx =>
        hall x hx ⟨((ht2 x).mp hpx).1, Or.inr ((ht2 x).mp hpx).2⟩)
    have hfm : find_matching_event a evs = Except.ok Option.none := by
      simp [find_matching_event, f1, f2, optDictTruthy, h2, pyTruthy,
        Pure.pure, Except.pure]
    simp [correlate_loop, hfm, Bind.bind, Except.bind, optDictTruthy,
      Pure.pure, Except.pure]

/-- C3 witness: the amended theorem applied to a concrete id-less API
record and an empty telemetry list, where it is indeed unmatched. -/
theorem C3_witness :
    correlate_loop [[("request_id", PyVal.none), ("timestamp", PyVal.none)]] [] =
      Except.ok ([], [[("request_id", PyVal.none), ("timestamp", PyVal.none)]]) :=
  (C3_theorem [("request_id", PyVal.none), ("timestamp", PyVal.none)] [] rfl rfl).mpr
    (by simp)

/-- C8: given one API record and two telemetry records sharing its
`requestId`, one of success kind and one of query kind, the Correlator
always pairs the API record with the success record — tier 1 scans for a
success identity match before tier 2 ever looks at query events — in
either order of the two telemetry records. -/
theorem C8_theorem (a s q : Dict)
    (hs : pyEq (Dict.getN s "request_id") (Dict.getN a "request_id") = true)
    (_hq : pyEq (Dict.getN q "request_id") (Dict.getN a "request_id") = true)
    (hse : Dict.getN s "event_type" = PyVal.str "tengu_api_success")
    (hqe : Dict.getN q "event_type" = PyVal.str "tengu_api_query") :
    correlate_loop [a] [s, q] = Except.ok ([mergeDicts a s], []) ∧
    correlate_loop [a] [q, s] = Except.ok ([mergeDicts a s], []) := by
  have hsne : s ≠ [] := ne_nil_of_getN_str hse
  have hps : tier1Pred a s = true := by
    unfold tier1Pred
    rw [hs, hse]
    simp [pyEq]
  have hpq : tier1Pred a q = false := by
    unfold tier1Pred
    rw [hqe]
    simp [pyEq]
  constructor
  · have hfind : ([s, q] : List Dict).find? (tier1Pred a) = some s := by
      simp [List.find?, hps]
    have hfm : find_matching_event a [s, q] = Except.ok (some s) := by
      simp [find_matching_event, hfind, optDictTruthy, List.isEmpty_eq_true, hsne,
        Pure.pure, Except.pure]
    simp [correlate_loop, hfm, Bind.bind, Except.bind, optDictTruthy,
      List.isEmpty_eq_true, hsne, Pure.pure, Except.pure]
  · have hfind : ([q, s] : List Dict).find? (tier1Pred a) = some s := by
      simp [List.find?, hps, hpq]
    have hfm : find_matching_event a [q, s] = Except.ok (some s) := by
      simp [find_matching_event, hfind, optDictTruthy, List.isEmpty_eq_true, hsne,
        Pure.pure, Except.pure]
    simp [correlate_loop, hfm, Bind.bind, Except.bind, optDictTruthy,
      List.isEmpty_eq_true, hsne, Pure.pure, Except.pure]

/-- C8 witness: the theorem applied to one concrete API record and one
concrete success/query pair sharing its `requestId`, in both orders. -/
theorem C8_witness :
    correlate_loop
        [[("request_id", PyVal.str "req-9"), ("timestamp", PyVal.time 0)]]
        [[("event_type", PyVal.str "tengu_api_success"), ("request_id", PyVal.str "req-9")],
         [("event_type", PyVal.str "tengu_api_query"), ("request_id", PyVal.str "req-9")]] =
      Except.ok
        ([mergeDicts [("request_id", PyVal.str "req-9"), ("timestamp", PyVal.time 0)]
            [("event_type", PyVal.str "tengu_api_success"), ("request_id", PyVal.str "req-9")]],
         []) ∧
    correlate_loop
        [[("request_id", PyVal.str "req-9"), ("timestamp", PyVal.time 0)]]
        [[("event_type", PyVal.str "tengu_api_query"), ("request_id", PyVal.str "req-9")],
         [("event_type", PyVal.str "tengu_api_success"), ("request_id", PyVal.str "req-9")]] =
      Except.ok
        ([mergeDicts [("request_id", PyVal.str "req-9"), ("timestamp", PyVal.time 0)]
            [("event_type", PyVal.str "tengu_api_success"), ("request_id", PyVal.str "req-9")]],
         []) :=
  C8_theorem
    [("request_id", PyVal.str "req-9"), ("timestamp", PyVal.time 0)]
    [("event_type", PyVal.str "tengu_api_success"), ("request_id", PyVal.str "req-9")]
    [("event_type", PyVal.str "tengu_api_query"), ("request_id", PyVal.str "req-9")]
    (by decide) (by decide) rfl rfl

/-- C9: the Correlator never alters or consumes the record lists — the
result returned by `analyze_log_file` carries exactly the accumulated API
and telemetry lists produced by the scan (first conjunct), and one
telemetry record matched by two API records is merged, unconsumed, into
both of their `CorrelatedRecord`s (second conjunct). -/
theorem C9_theorem :
    (∀ (ls : List String) (r : AnalysisResult),
      analyze_log_file ls = Except.ok r →
      scan_lines ls = Except.ok (r.api_requests, r.statsig_events)) ∧
    (∀ (a1 a2 t : Dict) (evs : List Dict),
      find_matching_event a1 evs = Except.ok (some t) →
      find_matching_event a2 evs = Except.ok (some t) →
      t ≠ [] →
      correlate_loop [a1, a2] evs =
        Except.ok ([mergeDicts a1 t, mergeDicts a2 t], [])) := by
  constructor
  · intro ls r h
    unfold analyze_log_file at h
    rw [exceptBindOk] at h
    obtain ⟨scanned, hscan, h2⟩ := h
    rw [exceptBindOk] at h2
    obtain ⟨pair, _, h3⟩ := h2
    have hr : r = ⟨scanned.1, scanned.2, pair.1, pair.2, _⟩ :=
      (Except.ok.inj h3).symm
    rw [hr]
    simpa using hscan
  · intro a1 a2 t evs h1 h2 ht
    simp [correlate_loop, h1, h2, Bind.bind, Except.bind, optDictTruthy,
      List.isEmpty_eq_true, ht, Pure.pure, Except.pure]

/-- C9 witness: the first conjunct applied to the empty log, and the
second applied to two concrete API records identity-matching the same
concrete success record. -/
theorem C9_witness :
    scan_lines [] = Except.ok ([], []) ∧
    correlate_loop
        [[("request_id", PyVal.str "x")], [("request_id", PyVal.str "x"), ("model", PyVal.none)]]
        [[("event_type", PyVal.str "tengu_api_success"), ("request_id", PyVal.str "x")]] =
      Except.ok
        ([mergeDicts [("request_id", PyVal.str "x")]
            [("event_type", PyVal.str "tengu_api_success"), ("request_id", PyVal.str "x")],
          mergeDicts [("request_id", PyVal.str "x"), ("model", PyVal.none)]
            [("event_type", PyVal.str "tengu_api_success"), ("request_id", PyVal.str "x")]],
         []) :=
  ⟨C9_theorem.1 [] ⟨[], [], [], [], ⟨[], [], []⟩⟩ rfl,
   C9_theorem.2 [("request_id", PyVal.str "x")]
     [("request_id", PyVal.str "x"), ("model", PyVal.none)]
     [("event_type", PyVal.str "tengu_api_success"), ("request_id", PyVal.str "x")]
     [[("event_type", PyVal.str "tengu_api_success"), ("request_id", PyVal.str "x")]]
     rfl rfl (List.cons_ne_nil _ _)⟩

/-- Parse of the batch request timestamp exactly as each extracted
telemetry record recomputes it (analyze_logs.py lines 146 and 164):
`parse_timestamp(request.get('timestamp', ''))`. -/
def batchTsParse (request : PyVal) : Except Unit ℚ := do
  let tsv ← request.getE "timestamp" (PyVal.str "")
  parse_timestamp tsv

/-- Every record the event loop extracts carries the parsed batch request
timestamp in its `timestamp` field. -/
theorem extract_event_dicts_timestamp (request : PyVal) :
    ∀ (events : List PyVal) (l : List Dict) (d : Dict),
      extract_event_dicts request events = Except.ok l → d ∈ l →
      ∃ t : ℚ, batchTsParse request = Except.ok t ∧
        lookupKV d "timestamp" = some (PyVal.time t)
  | [], l, d, h, hd => by
    simp only [extract_event_dicts] at h
    have hl : l = [] := (Except.ok.inj h).symm
    subst hl
    exact absurd hd (List.not_mem_nil d)
  | ev :: rest, l, d, h, hd => by
    rw [extract_event_dicts] at h
    rw [exceptBindOk] at h
    obtain ⟨ename, _, h⟩ := h
    rw [exceptBindOk] at h
    obtain ⟨meta, _, h⟩ := h
    split at h
    · rw [exceptBindOk] at h
      obtain ⟨tsv, htsv, h⟩ := h
      rw [exceptBindOk] at h
      obtain ⟨t, ht, h⟩ := h
      simp only [exceptBindOk] at h
      obtain ⟨v1, _, v2, _, v3, _, v4, _, v5, _, v6, _, v7, _, v8, _, v9, _, v10, _,
        v11, _, v12, _, v13, _, restD, hrest, hpure⟩ := h
      simp only [Pure.pure, Except.pure] at hpure
      have hl := Except.ok.inj hpure
      subst hl
      rcases List.mem_cons.mp hd with hdd | hdr
      · subst hdd
        refine ⟨t, ?_, by simp [lookupKV]⟩
        simp [batchTsParse, Bind.bind, Except.bind, htsv, ht]
      · exact extract_event_dicts_timestamp request rest restD d hrest hdr
    · split at h
      · rw [exceptBindOk] at h
        obtain ⟨tsv, htsv, h⟩ := h
        rw [exceptBindOk] at h
        obtain ⟨t, ht, h⟩ := h
        simp only [exceptBindOk] at h
        obtain ⟨v1, _, v2, _, v3, _, v4, _, v5, _, v6, _, restD, hrest, hpure⟩ := h
        simp only [Pure.pure, Except.pure] at hpure
        have hl := Except.ok.inj hpure
        subst hl
        rcases List.mem_cons.mp hd with hdd | hdr
        · subst hdd
          refine ⟨t, ?_, by simp [lookupKV]⟩
          simp [batchTsParse, Bind.bind, Except.bind, htsv, ht]
        · exact extract_event_dicts_timestamp request rest restD d hrest hdr
      · exact extract_event_dicts_timestamp request rest l d h hd

/-- C10: every `TelemetryRecord` extracted from one telemetry log entry
carries the same timestamp, the parse of the batch request's timestamp —
no per-event time is read, so the 5-second proximity tier always compares
an API record against the batch send time, identical for every event of
one batch. -/
theorem C10_theorem (v : PyVal) (evs : List Dict)
    (h : extract_statsig_data v = Except.ok (some evs)) :
    ∃ (req : PyVal) (t : ℚ),
      v.getE "request" (PyVal.dict []) = Except.ok req ∧
      batchTsParse req = Except.ok t ∧
      ∀ d ∈ evs, lookupKV d "timestamp" = some (PyVal.time t) := by
  rw [extract_statsig_data] at h
  rw [exceptBindOk] at h
  obtain ⟨req, hreq, h⟩ := h
  rw [exceptBindOk] at h
  obtain ⟨urlVal, hurl, h⟩ := h
  rw [exceptBindOk] at h
  obtain ⟨hasStatsig, hhs, h⟩ := h
  split at h
  · exact absurd (Except.ok.inj h) (by simp)
  · rw [exceptBindOk] at h
    obtain ⟨body, hbody, h⟩ := h
    rw [exceptBindOk] at h
    obtain ⟨eventsVal, hev, h⟩ := h
    rw [exceptBindOk] at h
    obtain ⟨events, hevs, h⟩ := h
    rw [exceptBindOk] at h
    obtain ⟨extracted, hex, hfin⟩ := h
    split at hfin
    · exact absurd (Except.ok.inj hfin) (by simp)
    · have : some extracted = some evs := by
        simpa [Pure.pure, Except.pure] using hfin
      have hevseq : extracted = evs := Option.some.inj this
      subst hevseq
      cases hne : extracted with
      | nil =>
        subst hne
        exact ⟨req, 0, hreq, by simp_all, by simp⟩
      | cons e0 rest =>
        subst hne
        obtain ⟨t, htp, _⟩ := extract_event_dicts_timestamp req events (e0 :: rest) e0 hex
          (List.mem_cons_self e0 rest)
        refine ⟨req, t, hreq, htp, ?_⟩
        intro d hd
        obtain ⟨t2, htp2, hlook⟩ := extract_event_dicts_timestamp req events (e0 :: rest) d hex hd
        have : t2 = t := by
          rw [htp] at htp2
          exact (Except.ok.inj htp2).symm
        rw [← this]
        exact hlook

/-- Telemetry-host entry whose batch holds one success and one query
event, both without metadata. -/
def statsigTwoEvents : PyVal :=
  PyVal.dict
    [("request", PyVal.dict
       [("url", PyVal.str "https://statsig.anthropic.com/v1/rgstr"),
        ("timestamp", PyVal.str "2024-01-01T10:00:01Z"),
        ("body", PyVal.dict
          [("events", PyVal.list
             [PyVal.dict [("eventName", PyVal.str "tengu_api_success")],
              PyVal.dict [("eventName", PyVal.str "tengu_api_query")]])])])]

/-- C10 witness: the theorem applied to a concrete two-event batch; both
extracted records carry the batch timestamp. -/
theorem C10_witness :
    ∃ (req : PyVal) (t : ℚ),
      statsigTwoEvents.getE "request" (PyVal.dict []) = Except.ok req ∧
      batchTsParse req = Except.ok t ∧
      ∀ d ∈
        [[("timestamp", PyVal.time 63839786401),
          ("event_type", PyVal.str "tengu_api_success"),
          ("model", PyVal.none), ("message_count", PyVal.none),
          ("input_tokens", PyVal.none), ("output_tokens", PyVal.none),
          ("cached_input_tokens", PyVal.none), ("uncached_input_tokens", PyVal.none),
          ("duration_ms", PyVal.none), ("ttft_ms", PyVal.none),
          ("cost_usd", PyVal.none), ("stop_reason", PyVal.none),
          ("provider", PyVal.none), ("request_id", PyVal.none),
          ("session_id", PyVal.none)],
         [("timestamp", PyVal.time 63839786401),
          ("event_type", PyVal.str "tengu_api_query"),
          ("model", PyVal.none), ("messages_length", PyVal.none),
          ("temperature", PyVal.none), ("provider", PyVal.none),
          ("session_id", PyVal.none), ("request_id", PyVal.none)]],
        lookupKV d "timestamp" = some (PyVal.time t) :=
  C10_theorem statsigTwoEvents _ (by with_unfolding_all rfl)

/-- A line of an SSE body that actually reaches the event dispatch: it has
the `data: ` prefix and its stripped payload is nonempty, is not the ping
literal, and decodes as JSON. -/
def lineIsEvent (l : List Char) : Bool :=
  startsWithL "data: ".data l &&
    (!(trimL (l.drop 6)).isEmpty &&
     !startsWithL pingLit (trimL (l.drop 6)) &&
     (jsonParse (trimL (l.drop 6))).isSome)

/-- A line that does not reach the event dispatch leaves the replay state
unchanged. -/
theorem replayStep_of_not_event (st : SSEState) (l : List Char)
    (h : lineIsEvent l = false) : replayStep st l = st := by
  rw [replayStep]
  by_cases h1 : startsWithL "data: ".data l = true
  · simp only [h1, if_true]
    by_cases h2 : ((trimL (l.drop 6)).isEmpty || startsWithL pingLit (trimL (l.drop 6))) = true
    · simp [h2]
    · simp only [Bool.not_eq_true] at h2
      simp only [h2, Bool.false_eq_true, if_false]
      cases hj : jsonParse (trimL (l.drop 6)) with
      | none => rfl
      | some d =>
        exfalso
        rw [lineIsEvent, h1] at h
        simp only [Bool.or_eq_false_iff] at h2
        simp [hj, h2.1, h2.2] at h
  · simp only [Bool.not_eq_true] at h1
    simp [h1]

/-- Folding the replay over any line list visits only the event lines. -/
theorem foldl_replay_filter (ls : List (List Char)) :
    ∀ st : SSEState, ls.foldl replayStep st = (ls.filter lineIsEvent).foldl replayStep st := by
  induction ls with
  | nil => intro st; rfl
  | cons l rest ih =>
    intro st
    cases hf : lineIsEvent l with
    | true => simp [List.filter, hf, List.foldl, ih]
    | false => simp [List.filter, hf, List.foldl, ih, replayStep_of_not_event st l hf]

/-- C7: replaying an SSE body with unrelated or malformed lines
interleaved among the well-formed event lines yields exactly the same
state — token counters and assistant message — as replaying the
well-formed subsequence alone; each non-event (unrelated, empty, ping or
undecodable) line is a no-op that cannot alter already-recovered state. -/
theorem C7_theorem :
    (∀ ls : List (List Char), replay_lines ls = replay_lines (ls.filter lineIsEvent)) ∧
    (∀ (st : SSEState) (l : List Char), lineIsEvent l = false → replayStep st l = st) :=
  ⟨fun ls => foldl_replay_filter ls initSSE,
   replayStep_of_not_event⟩

/-- C7 witness: the no-op conjunct applied to a concrete malformed `data:`
line and the filter conjunct instantiated on a concrete mixed body. -/
theorem C7_witness :
    replayStep initSSE "data: \x7bnot json".data = initSSE ∧
    replayStep initSSE "event: message_start".data = initSSE :=
  ⟨C7_theorem.2 initSSE "data: \x7bnot json".data (by decide),
   C7_theorem.2 initSSE "event: message_start".data (by decide)⟩

/-- Event payloads that (in the dispatch of analyze_logs.py lines 52-66)
assign to `output_tokens`: a `message_start` with a dict `message` whose
`usage` default is a dict, or a `message_delta` with a dict `usage`. -/
def eventWritesOutput : PyVal → Bool
  | PyVal.dict f =>
    (pyEq (Dict.getN f "type") (PyVal.str "message_start") &&
      (match lookupKV f "message" with
       | some (PyVal.dict m) =>
         (match Dict.get m "usage" (PyVal.dict []) with
          | PyVal.dict _ => true
          | _ => false)
       | _ => false)) ||
    (pyEq (Dict.getN f "type") (PyVal.str "message_delta") &&
      (match lookupKV f "usage" with
       | some (PyVal.dict _) => true
       | _ => false))
  | _ => false

/-- A line whose processing assigns to `output_tokens`. -/
def lineWritesOutput (l : List Char) : Bool :=
  lineIsEvent l &&
    (match jsonParse (trimL (l.drop 6)) with
     | some d => eventWritesOutput d
     | Option.none => false)

/-- An event that does not write `output_tokens` leaves it unchanged. -/
theorem processEvent_output (st : SSEState) (d : PyVal)
    (h : eventWritesOutput d = false) :
    (processEvent st d).output_tokens = st.output_tokens := by
  cases d with
  | dict f =>
    rw [eventWritesOutput] at h
    rw [processEvent]
    simp only [Bool.or_eq_false_iff, Bool.and_eq_false_iff] at h
    by_cases hms : (pyEq (Dict.getN f "type") (PyVal.str "message_start") &&
        Dict.hasKey f "message") = true
    · simp only [hms, if_true]
      rcases h.1 with hty | hmm
      · rw [Bool.and_eq_true] at hms
        rw [hms.1] at hty
        exact absurd hty (by simp)
      · cases hlook : lookupKV f "message" with
        | none => rfl
        | some mv =>
          cases mv <;> simp_all
          rename_i m
          cases hus : Dict.get m "usage" (PyVal.dict []) <;> simp_all
    · simp only [hms, Bool.false_eq_true, if_false]
      by_cases hcd : (pyEq (Dict.getN f "type") (PyVal.str "content_block_delta") &&
          Dict.hasKey f "delta") = true
      · simp only [hcd, if_true]
        cases hlook : lookupKV f "delta" with
        | none => rfl
        | some dv =>
          cases dv with
          | dict dd =>
            cases ht : lookupKV dd "text" with
            | none => simp [ht]
            | some tv => cases tv <;> simp [ht]
          | _ => rfl
      · simp only [hcd, Bool.false_eq_true, if_false]
        by_cases hmd : (pyEq (Dict.getN f "type") (PyVal.str "message_delta") &&
            Dict.hasKey f "usage") = true
        · simp only [hmd, if_true]
          rcases h.2 with hty | hu
          · rw [Bool.and_eq_true] at hmd
            rw [hmd.1] at hty
            exact absurd hty (by simp)
          · cases hlook : lookupKV f "usage" with
            | none => rfl
            | some uv => cases uv <;> simp_all
        · simp [hmd]
  | _ => rfl

/-- A line that does not write `output_tokens` leaves it unchanged. -/
theorem replayStep_output (st : SSEState) (l : List Char)
    (h : lineWritesOutput l = false) :
    (replayStep st l).output_tokens = st.output_tokens := by
  cases he : lineIsEvent l with
  | false => rw [replayStep_of_not_event st l he]
  | true =>
    rw [lineWritesOutput, he, Bool.true_and] at h
    rw [lineIsEvent] at he
    simp only [Bool.and_eq_true] at he
    obtain ⟨h1, ⟨h2, h3⟩, h4⟩ := he
    rw [Option.isSome_iff_exists] at h4
    obtain ⟨d, hd⟩ := h4
    rw [hd] at h
    rw [replayStep]
    simp only [h1, if_true]
    rw [Bool.not_eq_true'] at h2 h3
    simp only [h2, h3, Bool.or_self, Bool.false_eq_true, if_false, hd]
    exact processEvent_output st d h

/-- Folding over lines none of which writes `output_tokens` preserves it. -/
theorem foldl_replay_output (ls : List (List Char)) :
    ∀ st : SSEState, (∀ x ∈ ls, lineWritesOutput x = false) →
      (ls.foldl replayStep st).output_tokens = st.output_tokens := by
  induction ls with
  | nil => intro st _; rfl
  | cons l rest ih =>
    intro st h
    rw [List.foldl_cons]
    rw [ih (replayStep st l) (fun x hx => h x (List.mem_cons_of_mem l hx))]
    exact replayStep_output st l (h l (List.mem_cons_self l rest))

/-- C6: replaying a body whose last `output_tokens`-writing line is a
`message_delta` usage event yields exactly that event's carried
`output_tokens` value (last write wins), independent of everything before
it — in particular it is not a sum with the `message_start` value. -/
theorem C6_theorem (L1 L2 : List (List Char)) (l : List Char)
    (f : List (String × PyVal)) (u : List (String × PyVal))
    (h1 : lineIsEvent l = true)
    (h2 : jsonParse (trimL (l.drop 6)) = some (PyVal.dict f))
    (h3 : Dict.getN f "type" = PyVal.str "message_delta")
    (h4 : lookupKV f "usage" = some (PyVal.dict u))
    (h5 : ∀ l2 ∈ L2, lineWritesOutput l2 = false) :
    (replay_lines (L1 ++ l :: L2)).output_tokens = Dict.getN u "output_tokens" := by
  rw [replay_lines, List.foldl_append, List.foldl_cons]
  rw [foldl_replay_output L2 _ h5]
  rw [lineIsEvent] at h1
  simp only [Bool.and_eq_true] at h1
  obtain ⟨hp, ⟨hne, hnp⟩, _⟩ := h1
  rw [replayStep]
  simp only [hp, if_true]
  rw [Bool.not_eq_true'] at hne hnp
  simp only [hne, hnp, Bool.or_self, Bool.false_eq_true, if_false, h2]
  rw [processEvent]
  rw [h3]
  have hk : Dict.hasKey f "usage" = true := by
    rw [Dict.hasKey, h4]
    rfl
  simp [pyEq, h4, hk]

/-- Demo body: a `message_start` usage line carrying `output_tokens` 10,
then a `message_delta` usage line carrying 25. -/
def demoDeltaLine : List Char :=
  "data: \x7b\"type\": \"message_delta\", \"usage\": \x7b\"output_tokens\": 25\x7d\x7d".data

/-- Start line of the demo body. -/
def demoStartLine : List Char :=
  "data: \x7b\"type\": \"message_start\", \"message\": \x7b\"usage\": \x7b\"input_tokens\": 3, \"output_tokens\": 10\x7d\x7d\x7d".data

/-- C6 witness: on the concrete start-then-delta body the final
`output_tokens` is the delta's 25 — not 35, the sum of the two values
seen. -/
theorem C6_witness :
    (replay_lines [demoStartLine, demoDeltaLine]).output_tokens = PyVal.num 25 ∧
    PyVal.num 25 ≠ PyVal.num 35 := by
  constructor
  · have h := C6_theorem [demoStartLine] [] demoDeltaLine
      [("type", PyVal.str "message_delta"), ("usage", PyVal.dict [("output_tokens", PyVal.num 25)])]
      [("output_tokens", PyVal.num 25)]
      (by with_unfolding_all rfl) (by with_unfolding_all rfl) rfl rfl (by simp)
    rw [show ([demoStartLine] ++ demoDeltaLine :: [] : List (List Char)) =
      [demoStartLine, demoDeltaLine] from rfl] at h
    rw [h]
    rfl
  · intro h
    have := PyVal.num.inj h
    norm_num at this

/-- Modelled from the spec: the field values of the records whose field is
set (to a number) — the population the spec says aggregates must be
computed over. -/
def specSetValues (ms : List Dict) (k : String) : List ℚ :=
  ms.filterMap (fun r =>
    match lookupKV r k with
    | some (PyVal.num q) => some q
    | _ => Option.none)

/-- Modelled from the spec: the average over only the records whose field
is set, `none` when no record has it set. -/
def specAvgExcludingUnset (ms : List Dict) (k : String) : Option ℚ :=
  if (specSetValues ms k).isEmpty then Option.none
  else some ((specSetValues ms k).foldl (fun a b => a + b) 0 / ((specSetValues ms k).length : ℚ))

/-- Field is either a number or absent (never a present non-number). -/
def numOrAbsent (r : Dict) (k : String) : Bool :=
  match lookupKV r k with
  | some (PyVal.num _) => true
  | Option.none => true
  | some _ => false

/-- Sum with zero substituted for an absent field — what the code
computes. -/
def specZeroSubstSum (ms : List Dict) (k : String) : ℚ :=
  ms.foldl (fun a r =>
    a + (match lookupKV r k with
         | some (PyVal.num q) => q
         | _ => 0)) 0

/-- Python `sum(req.get(field, 0) for req in ms)` equals the
zero-substituting sum whenever every present value is numeric. -/
theorem pySum_zeroSubst (k : String) :
    ∀ (ms : List Dict) (acc : ℚ), (∀ r ∈ ms, numOrAbsent r k = true) →
      List.foldlM pyAdd acc (ms.map (fun r => Dict.get r k (PyVal.num 0))) =
        Except.ok (ms.foldl (fun a r =>
          a + (match lookupKV r k with
               | some (PyVal.num q) => q
               | _ => 0)) acc)
  | [], acc, _ => rfl
  | r :: ms, acc, h => by
    have hr := h r (List.mem_cons_self r ms)
    have hrest := pySum_zeroSubst k ms
    rw [numOrAbsent] at hr
    rw [List.map_cons, List.foldlM_cons, List.foldl_cons]
    cases hl : lookupKV r k with
    | none =>
      simp only [Dict.get, hl, Option.getD, pyAdd, Bind.bind, Except.bind]
      exact hrest (acc + 0) (fun x hx => h x (List.mem_cons_of_mem r hx))
    | some v =>
      rw [hl] at hr
      cases v with
      | num q =>
        simp only [Dict.get, hl, Option.getD, pyAdd, Bind.bind, Except.bind]
        exact hrest (acc + q) (fun x hx => h x (List.mem_cons_of_mem r hx))
      | none => simp at hr
      | bool b => simp at hr
      | str s => simp at hr
      | time t => simp at hr
      | list l => simp at hr
      | dict d => simp at hr

/-- C5 as amended: the aggregate statistics substitute zero for a field
whose key is absent — they do not exclude such records — and the two
averages divide by the number of all matched records; a field present but
`None` instead makes the aggregation raise. -/
theorem C5_theorem (ms : List Dict)
    (h : ∀ r ∈ ms, ∀ k ∈ (["input_tokens", "output_tokens", "cost_usd",
      "duration_ms", "ttft_ms"] : List String), numOrAbsent r k = true) :
    summary_statistics ms = Except.ok
      ⟨specZeroSubstSum ms "input_tokens",
       specZeroSubstSum ms "output_tokens",
       specZeroSubstSum ms "cost_usd",
       specZeroSubstSum ms "duration_ms" / (ms.length : ℚ),
       specZeroSubstSum ms "ttft_ms" / (ms.length : ℚ)⟩ := by
  have h1 := pySum_zeroSubst "input_tokens" ms 0 (fun r hr => h r hr _ (by simp))
  have h2 := pySum_zeroSubst "output_tokens" ms 0 (fun r hr => h r hr _ (by simp))
  have h3 := pySum_zeroSubst "cost_usd" ms 0 (fun r hr => h r hr _ (by simp))
  have h4 := pySum_zeroSubst "duration_ms" ms 0 (fun r hr => h r hr _ (by simp))
  have h5 := pySum_zeroSubst "ttft_ms" ms 0 (fun r hr => h r hr _ (by simp))
  simp only [summary_statistics, pySum, h1, h2, h3, h4, h5, Bind.bind, Except.bind,
    Pure.pure, Except.pure, specZeroSubstSum]

/-- Record matched via a success event: all five aggregate fields set. -/
def matchedWithMetrics : Dict :=
  [("input_tokens", PyVal.num 1), ("output_tokens", PyVal.num 2),
   ("cost_usd", PyVal.num (1/2)), ("duration_ms", PyVal.num 100),
   ("ttft_ms", PyVal.num 10)]

/-- Record matched via a query event: no `cost_usd`, `duration_ms` or
`ttft_ms` key at all. -/
def matchedNoMetrics : Dict :=
  [("input_tokens", PyVal.num 3), ("output_tokens", PyVal.num 4)]

/-- C5 counterexample: over one record with `duration_ms` 100 and one
record without the field, the code's average duration is 50 — the absent
field was counted as zero and the record was *not* excluded — while the
exclude-unset average the claim requires is 100. -/
theorem C5_counterexample :
    summary_statistics [matchedWithMetrics, matchedNoMetrics] =
      Except.ok ⟨4, 6, 1/2, 50, 5⟩ ∧
    specAvgExcludingUnset [matchedWithMetrics, matchedNoMetrics] "duration_ms" = some 100 ∧
    (50 : ℚ) ≠ 100 := by
  refine ⟨by with_unfolding_all rfl, by with_unfolding_all rfl, by norm_num⟩

/-- C5 witness: the amended theorem applied to the concrete two-record
matched list. -/
theorem C5_witness :
    summary_statistics [matchedWithMetrics, matchedNoMetrics] = Except.ok
      ⟨specZeroSubstSum [matchedWithMetrics, matchedNoMetrics] "input_tokens",
       specZeroSubstSum [matchedWithMetrics, matchedNoMetrics] "output_tokens",
       specZeroSubstSum [matchedWithMetrics, matchedNoMetrics] "cost_usd",
       specZeroSubstSum [matchedWithMetrics, matchedNoMetrics] "duration_ms" / 2,
       specZeroSubstSum [matchedWithMetrics, matchedNoMetrics] "ttft_ms" / 2⟩ :=
  C5_theorem [matchedWithMetrics, matchedNoMetrics]
    (by
      intro r hr k hk
      simp only [List.mem_cons, List.not_mem_nil, or_false] at hr hk
      rcases hr with rfl | rfl <;>
        rcases hk with rfl | rfl | rfl | rfl | rfl <;> rfl)

/-- Schematic API-host entry: a request with the given url and, optionally,
a raw `timestamp` value; no other fields. -/
def mkApiEntryTs (u : String) (ts : Option PyVal) : PyVal :=
  PyVal.dict
    [("request", PyVal.dict
       (("url", PyVal.str u) ::
        (match ts with
         | some v => [("timestamp", v)]
         | Option.none => [])))]

/-- Raw log line decoding to an API-host entry without a timestamp. -/
def apiNoTsLine : String :=
  "\x7b\"request\": \x7b\"url\": \"https://anyrouter.top/v1/messages\"\x7d\x7d"

/-- An empty string fails to decode as JSON. -/
theorem jsonParse_nil : jsonParse [] = Option.none := rfl

/-- A scan that was succeeding fails when the remaining lines fail. -/
theorem scan_lines_error_append :
    ∀ (xs : List String) (ys : List String) (x : List Dict × List Dict),
      scan_lines xs = Except.ok x → scan_lines ys = Except.error () →
      scan_lines (xs ++ ys) = Except.error ()
  | [], ys, x, _, hy => hy
  | l :: rest, ys, x, hx, hy => by
    rw [scan_lines] at hx
    rw [List.cons_append, scan_lines]
    by_cases hb : (trimL l.data).isEmpty = true
    · rw [if_pos hb] at hx
      rw [if_pos hb]
      exact scan_lines_error_append rest ys x hx hy
    · rw [if_neg hb] at hx
      rw [if_neg hb]
      cases hj : jsonParse (trimL l.data) with
      | none =>
        rw [hj] at hx
        exact scan_lines_error_append rest ys x hx hy
      | some v =>
        rw [hj] at hx
        rw [exceptBindOk] at hx
        obtain ⟨a, ha, hx⟩ := hx
        rw [exceptBindOk] at hx
        obtain ⟨s, hs, hx⟩ := hx
        rw [exceptBindOk] at hx
        obtain ⟨tp, htp, _⟩ := hx
        rw [exceptBindError]
        right
        refine ⟨a, ha, ?_⟩
        rw [exceptBindError]
        right
        refine ⟨s, hs, ?_⟩
        rw [exceptBindError]
        left
        exact scan_lines_error_append rest ys tp htp hy

/-- A line whose entry makes `extract_api_data` raise fails the scan of
any line list starting with it. -/
theorem scan_cons_error (line : String) (post : List String) (v : PyVal)
    (hj : jsonParse (trimL line.data) = some v)
    (he : extract_api_data v = Except.error ()) :
    scan_lines (line :: post) = Except.error () := by
  have hne : (trimL line.data).isEmpty = false := by
    cases htr : trimL line.data with
    | nil =>
      rw [htr, jsonParse_nil] at hj
      exact Option.noConfusion hj
    | cons c cs => rfl
  rw [scan_lines, hne, hj]
  simp [he, Bind.bind, Except.bind]

/-- A failing scan makes the whole analysis fail. -/
theorem analyze_error_of_scan_error (ls : List String)
    (h : scan_lines ls = Except.error ()) :
    analyze_log_file ls = Except.error () := by
  rw [analyze_log_file]
  rw [exceptBindError]
  left
  exact h

/-- C1 as amended: record extraction does raise for one missing field —
an API-host entry whose request lacks a parseable timestamp makes
`extract_api_data` raise `ValueError` out of `parse_timestamp` (line 107);
the scanner catches only `json.JSONDecodeError` (line 202), so the
exception escapes and the whole analysis aborts instead of that record
being omitted. -/
theorem C1_theorem (u : String) (ts : Option PyVal) (pre post : List String)
    (x : List Dict × List Dict) (line : String)
    (hu : strContains u "anyrouter.top" = true)
    (ht : parse_timestamp (ts.getD (PyVal.str "")) = Except.error ())
    (hpre : scan_lines pre = Except.ok x)
    (hline : jsonParse (trimL line.data) = some (mkApiEntryTs u ts)) :
    extract_api_data (mkApiEntryTs u ts) = Except.error () ∧
    analyze_log_file (pre ++ line :: post) = Except.error () := by
  have hex : extract_api_data (mkApiEntryTs u ts) = Except.error () := by
    cases ts with
    | none =>
      simp only [Option.getD] at ht
      simp [mkApiEntryTs, extract_api_data, PyVal.getE, Dict.get, Dict.getN,
        lookupKV, pyInE, hu, pyIterE, pyLenE, Bind.bind, Except.bind,
        Pure.pure, Except.pure, ht, List.filterM, List.filterAuxM, List.getLast?]
    | some v =>
      simp only [Option.getD] at ht
      simp [mkApiEntryTs, extract_api_data, PyVal.getE, Dict.get, Dict.getN,
        lookupKV, pyInE, hu, pyIterE, pyLenE, Bind.bind, Except.bind,
        Pure.pure, Except.pure, ht, List.filterM, List.filterAuxM, List.getLast?]
  refine ⟨hex, ?_⟩
  exact analyze_error_of_scan_error _
    (scan_lines_error_append pre (line :: post) x hpre
      (scan_cons_error line post _ hline hex))

/-- C1 witness: the amended theorem applied to a concrete log — a blank
line, then the timestamp-less API line, then one more line — whose
analysis aborts with the uncaught exception. -/
theorem C1_witness :
    extract_api_data (mkApiEntryTs "https://anyrouter.top/v1/messages" Option.none) =
      Except.error () ∧
    analyze_log_file ([""] ++ apiNoTsLine :: ["\x7b\x7d"]) = Except.error () :=
  C1_theorem "https://anyrouter.top/v1/messages" Option.none [""] ["\x7b\x7d"]
    ([], []) apiNoTsLine (by decide) (by rfl) (by rfl) (by rfl)

/-- C1 counterexample: the same concrete input stated directly — the
API-host entry without a timestamp neither yields a record nor is skipped:
extraction raises and the whole analysis aborts (`main` then exits 1). -/
theorem C1_counterexample :
    extract_api_data
      (PyVal.dict [("request",
        PyVal.dict [("url", PyVal.str "https://anyrouter.top/v1/messages")])]) =
      Except.error () ∧
    analyze_log_file [apiNoTsLine] = Except.error () := by
  constructor
  · with_unfolding_all rfl
  · with_unfolding_all rfl
